import Mathlib

/-
  Shallow embedding of the polygon-mev-bot sources.

  Machine integers: ethers `U256` values are modelled as `Nat`; the `uint`
  crate's checked arithmetic (which panics on overflow/underflow in both debug
  and release builds) is modelled explicitly with `Option` where an operation
  can overflow or underflow.  Addresses (`H160`) and hashes (`H256`) are
  modelled as `Nat` (their numeric value).  Fallible Rust code returning
  `anyhow::Result` is modelled with `Except String`.
-/

namespace MevBot

/-- Embedding of `ethers::types::Transaction` restricted to the fields the
repository reads: `hash`, `from`, `to`, `value`, `input` (calldata bytes) and
`gas_price`. -/
structure Transaction where
  hash : Nat
  from_ : Nat
  to_ : Option Nat
  value : Nat
  input : List Nat
  gas_price : Nat
deriving DecidableEq, Repr

/-! ## src/quickswap.rs — the QuickSwap action decoder -/

/-- QuickSwap V2 router address on Polygon (`QUICKSWAP_ROUTER_ADDR` in
`src/quickswap.rs`). -/
def QUICKSWAP_ROUTER_ADDR : Nat := 0xa5E0829CaCEd8fFDD4De3c43696c57F7D7A678ff

/-- SushiSwap router address (from `is_swap_transaction` in `src/main.rs`). -/
def SUSHISWAP_ROUTER_ADDR : Nat := 0x1b02dA8Cb0d097eB8D57A175b88c7D8b47997506

/-- Uniswap V3 router address (from `is_swap_transaction` in `src/main.rs`). -/
def UNISWAP_V3_ROUTER_ADDR : Nat := 0xE592427A0AEce92De3Edee1F18E0157C05861564

/-- WMATIC token address (`WETH` in `src/main.rs`, `WMATIC` in
`src/quickswap.rs`). -/
def WMATIC_ADDR : Nat := 0x0d500B1d8E8eF31E21C99d1Db9A6444d3ADf1270

/-- USDC token address. -/
def USDC_ADDR : Nat := 0x2791Bca1f2de4661ED88A30C99A7a9449Aa84174

/-- USDT token address. -/
def USDT_ADDR : Nat := 0xc2132D05D31c914a87C6611C10748AEb04B58e8F

/-- Embedding of `ethers::abi::Token` restricted to the variants the decoder
in `src/quickswap.rs` inspects (`Uint`, `Address`, `Array`); all other
variants behave identically there and are collapsed into `other`. -/
inductive Token where
  | uint (v : Nat)
  | address (a : Nat)
  | array (elems : List Token)
  | other
deriving Repr

/-- Embedding of `QuickSwapAction` from `src/quickswap.rs`, with the fields
in source order for each variant. -/
inductive QuickSwapAction where
  | swapExactTokensForTokens (amount_in amount_out_min : Nat) (path : List Nat) (to_ : Nat) (deadline : Nat)
  | swapExactTokensForETH (amount_in amount_out_min : Nat) (path : List Nat) (to_ : Nat) (deadline : Nat)
  | swapExactETHForTokens (amount_in amount_out_min : Nat) (path : List Nat) (to_ : Nat) (deadline : Nat)
  | swapTokensForExactTokens (amount_out amount_in_max : Nat) (path : List Nat) (to_ : Nat) (deadline : Nat)
  | swapTokensForExactETH (amount_out amount_in_max : Nat) (path : List Nat) (to_ : Nat) (deadline : Nat)
  | swapETHForExactTokens (amount_out : Nat) (path : List Nat) (to_ : Nat) (deadline : Nat) (amount_in_max : Nat)
  | swapExactTokensForTokensSupportingFeeOnTransferTokens (amount_in amount_out_min : Nat) (path : List Nat) (to_ : Nat) (deadline : Nat)
  | swapExactTokensForETHSupportingFeeOnTransferTokens (amount_in amount_out_min : Nat) (path : List Nat) (to_ : Nat) (deadline : Nat)
  | swapExactETHForTokensSupportingFeeOnTransferTokens (amount_in amount_out_min : Nat) (path : List Nat) (to_ : Nat) (deadline : Nat)
deriving DecidableEq, Repr

/-- Embedding of `QuickSwapAction::get_path` from `src/quickswap.rs`. -/
def QuickSwapAction.get_path : QuickSwapAction → List Nat
  | .swapExactTokensForTokens _ _ path _ _ => path
  | .swapExactTokensForETH _ _ path _ _ => path
  | .swapExactETHForTokens _ _ path _ _ => path
  | .swapTokensForExactTokens _ _ path _ _ => path
  | .swapTokensForExactETH _ _ path _ _ => path
  | .swapETHForExactTokens _ path _ _ _ => path
  | .swapExactTokensForTokensSupportingFeeOnTransferTokens _ _ path _ _ => path
  | .swapExactTokensForETHSupportingFeeOnTransferTokens _ _ path _ _ => path
  | .swapExactETHForTokensSupportingFeeOnTransferTokens _ _ path _ _ => path

/-- Helper in `parse_quickswap_tx`: the element-wise loop inside
`to_addr_vec`, which requires every element of the array to be an
`Address` token. -/
def addr_elems : List Token → Option (List Nat)
  | [] => some []
  | .address a :: rest => (addr_elems rest).map (a :: ·)
  | _ :: _ => none

/-- Embedding of the `to_addr_vec` helper in `parse_quickswap_tx`
(`src/quickswap.rs`): maps `Token::Array` of addresses to the address list,
anything else to `None`. -/
def to_addr_vec : Token → Option (List Nat)
  | .array v => addr_elems v
  | _ => none

/-- Embedding of the `to_u256` helper in `parse_quickswap_tx`. -/
def to_u256 : Token → Option Nat
  | .uint u => some u
  | _ => none

/-- Embedding of the `to_addr` helper in `parse_quickswap_tx`. -/
def to_addr : Token → Option Nat
  | .address a => some a
  | _ => none

/-- The inner `match name` dispatch of `parse_quickswap_tx`
(`src/quickswap.rs` lines 177-284): given the matched function's name, the
decoded token list and the transaction's `value` field, build the
`QuickSwapAction` variant.  Each branch first checks the decoded token count
against the schema (`if tokens.len() != n return None`), then extracts the
fields; for the three native-asset-input variants the bound input amount is
the transaction's `value`, not a decoded token. -/
def dispatch (name : String) (tokens : List Token) (txValue : Nat) : Option QuickSwapAction :=
  match name with
  | "swapExactTokensForTokens" =>
    if tokens.length ≠ 5 then none else do
      let amount_in ← to_u256 (← tokens[0]?)
      let amount_out_min ← to_u256 (← tokens[1]?)
      let path ← to_addr_vec (← tokens[2]?)
      let to_ ← to_addr (← tokens[3]?)
      let deadline ← to_u256 (← tokens[4]?)
      some (.swapExactTokensForTokens amount_in amount_out_min path to_ deadline)
  | "swapExactTokensForETH" =>
    if tokens.length ≠ 5 then none else do
      let amount_in ← to_u256 (← tokens[0]?)
      let amount_out_min ← to_u256 (← tokens[1]?)
      let path ← to_addr_vec (← tokens[2]?)
      let to_ ← to_addr (← tokens[3]?)
      let deadline ← to_u256 (← tokens[4]?)
      some (.swapExactTokensForETH amount_in amount_out_min path to_ deadline)
  | "swapExactETHForTokens" =>
    if tokens.length ≠ 4 then none else do
      let amount_out_min ← to_u256 (← tokens[0]?)
      let path ← to_addr_vec (← tokens[1]?)
      let to_ ← to_addr (← tokens[2]?)
      let deadline ← to_u256 (← tokens[3]?)
      some (.swapExactETHForTokens txValue amount_out_min path to_ deadline)
  | "swapTokensForExactTokens" =>
    if tokens.length ≠ 5 then none else do
      let amount_out ← to_u256 (← tokens[0]?)
      let amount_in_max ← to_u256 (← tokens[1]?)
      let path ← to_addr_vec (← tokens[2]?)
      let to_ ← to_addr (← tokens[3]?)
      let deadline ← to_u256 (← tokens[4]?)
      some (.swapTokensForExactTokens amount_out amount_in_max path to_ deadline)
  | "swapTokensForExactETH" =>
    if tokens.length ≠ 5 then none else do
      let amount_out ← to_u256 (← tokens[0]?)
      let amount_in_max ← to_u256 (← tokens[1]?)
      let path ← to_addr_vec (← tokens[2]?)
      let to_ ← to_addr (← tokens[3]?)
      let deadline ← to_u256 (← tokens[4]?)
      some (.swapTokensForExactETH amount_out amount_in_max path to_ deadline)
  | "swapETHForExactTokens" =>
    if tokens.length ≠ 4 then none else do
      let amount_out ← to_u256 (← tokens[0]?)
      let path ← to_addr_vec (← tokens[1]?)
      let to_ ← to_addr (← tokens[2]?)
      let deadline ← to_u256 (← tokens[3]?)
      some (.swapETHForExactTokens amount_out path to_ deadline txValue)
  | "swapExactTokensForTokensSupportingFeeOnTransferTokens" =>
    if tokens.length ≠ 5 then none else do
      let amount_in ← to_u256 (← tokens[0]?)
      let amount_out_min ← to_u256 (← tokens[1]?)
      let path ← to_addr_vec (← tokens[2]?)
      let to_ ← to_addr (← tokens[3]?)
      let deadline ← to_u256 (← tokens[4]?)
      some (.swapExactTokensForTokensSupportingFeeOnTransferTokens amount_in amount_out_min path to_ deadline)
  | "swapExactTokensForETHSupportingFeeOnTransferTokens" =>
    if tokens.length ≠ 5 then none else do
      let amount_in ← to_u256 (← tokens[0]?)
      let amount_out_min ← to_u256 (← tokens[1]?)
      let path ← to_addr_vec (← tokens[2]?)
      let to_ ← to_addr (← tokens[3]?)
      let deadline ← to_u256 (← tokens[4]?)
      some (.swapExactTokensForETHSupportingFeeOnTransferTokens amount_in amount_out_min path to_ deadline)
  | "swapExactETHForTokensSupportingFeeOnTransferTokens" =>
    if tokens.length ≠ 4 then none else do
      let amount_out_min ← to_u256 (← tokens[0]?)
      let path ← to_addr_vec (← tokens[1]?)
      let to_ ← to_addr (← tokens[2]?)
      let deadline ← to_u256 (← tokens[3]?)
      some (.swapExactETHForTokensSupportingFeeOnTransferTokens txValue amount_out_min path to_ deadline)
  | _ => none

/-- One entry of the router ABI registry (`QUICKSWAP_ROUTER_ABI` in the
source is built at startup by `ethers::abi::AbiParser`, an external library):
a function name, its 4-byte selector, and the library's `decode_input`
routine for its parameter schema.  Both the selector computation (keccak) and
ABI decoding are library code outside this repository, so they are carried as
data here. -/
structure AbiFunction where
  name : String
  selector : List Nat
  decode_input : List Nat → Option (List Token)

/-- Embedding of `parse_quickswap_tx` from `src/quickswap.rs`: reject
transactions not addressed to the QuickSwap router or with fewer than 4 bytes
of calldata; find the first registry function whose selector matches the
first 4 bytes; ABI-decode the remaining bytes (`None` on decode failure, via
`ok()?`); dispatch on the function name.  The Rust `for` loop returns from
the whole function inside the first selector match, which is exactly
`List.find?` followed by the dispatch. -/
def parse_quickswap_tx (registry : List AbiFunction) (tx : Transaction) : Option QuickSwapAction :=
  if tx.to_ ≠ some QUICKSWAP_ROUTER_ADDR then none
  else if tx.input.length < 4 then none
  else
    match registry.find? (fun f => f.selector == tx.input.take 4) with
    | none => none
    | some f =>
      match f.decode_input (tx.input.drop 4) with
      | none => none
      | some tokens => dispatch f.name tokens tx.value

/-- The decoded token count each branch of `dispatch` requires before it
builds an action: 4 for the three native-asset-input entrypoints (whose
schemas carry no explicit input amount), 5 for the six token-input
entrypoints, and no schema for names outside the registry's surface. -/
def schema_token_count : String → Option Nat
  | "swapExactTokensForTokens" => some 5
  | "swapExactTokensForETH" => some 5
  | "swapExactETHForTokens" => some 4
  | "swapTokensForExactTokens" => some 5
  | "swapTokensForExactETH" => some 5
  | "swapETHForExactTokens" => some 4
  | "swapExactTokensForTokensSupportingFeeOnTransferTokens" => some 5
  | "swapExactTokensForETHSupportingFeeOnTransferTokens" => some 5
  | "swapExactETHForTokensSupportingFeeOnTransferTokens" => some 4
  | _ => none

/-! ## src/main.rs — MempoolMonitor -/

/-- Embedding of `ArbitrageOpportunity` from `src/main.rs`. -/
structure ArbitrageOpportunity where
  token_in : Nat
  token_out : Nat
  amount_in : Nat
  expected_profit : Nat
  path : List Nat
  routers : List Nat
  pool_address : Nat
  fee : Nat
deriving DecidableEq, Repr

/-- The mutex-guarded state of `MempoolMonitor` (`src/main.rs`): the
opportunity store, the dedup set of processed transaction hashes, and the
simulation cache mapping a transaction hash to its price impact.  The
`HashSet` is modelled as a list of hashes (membership is what the code
observes), and the `HashMap` as an association list where insertion conses to
the front and lookup takes the first match, matching overwrite semantics. -/
structure MonitorState where
  opportunities : List ArbitrageOpportunity
  processed_txs : List Nat
  sim_cache : List (Nat × Nat)
deriving Repr

/-- Embedding of `MempoolMonitor::is_swap_transaction` (`src/main.rs`): the
transaction's recipient, formatted as its full lowercase hex string, is
tested for containing one of the three known router addresses; since both
strings are complete 20-byte addresses, that containment test is address
equality. -/
def is_swap_transaction (tx : Transaction) : Bool :=
  match tx.to_ with
  | some t => [QUICKSWAP_ROUTER_ADDR, SUSHISWAP_ROUTER_ADDR, UNISWAP_V3_ROUTER_ADDR].contains t
  | none => false

/-- Embedding of `MempoolMonitor::simulate_price_impact` (`src/main.rs`
lines 153-185).  The revm sandbox run is an external collaborator; its
outcome for this transaction is the `evmSuccess` flag (`true` when
`ExecutionResult::Success`).  Returns the impact, the updated cache, and
whether a fresh simulation was run (`false` on a cache hit).  Note the code
maps an unsuccessful execution to an impact of zero and caches it; it never
returns an error. -/
def simulate_price_impact (cache : List (Nat × Nat)) (tx : Transaction) (evmSuccess : Bool) :
    Nat × List (Nat × Nat) × Bool :=
  match cache.lookup tx.hash with
  | some result => (result, cache, false)
  | none =>
    let price_impact := if evmSuccess then 150 else 0
    (price_impact, (tx.hash, price_impact) :: cache, true)

/-- Embedding of `MempoolMonitor::find_arbitrage_path` (`src/main.rs`): a
hardcoded WMATIC/USDC/WMATIC path wrapped in `Ok(Some(..))`. -/
def find_arbitrage_path (_tx : Transaction) : Option (List Nat) :=
  some [WMATIC_ADDR, USDC_ADDR, WMATIC_ADDR]

/-- Embedding of `MempoolMonitor::calculate_profit` (`src/main.rs`):
`U256::from(15).pow(15)`. -/
def calculate_profit (_path : List Nat) : Nat := 15 ^ 15

/-- Embedding of `MempoolMonitor::get_routers_for_path` (`src/main.rs`):
hardcoded QuickSwap and Uniswap V3 routers. -/
def get_routers_for_path (_path : List Nat) : List Nat :=
  [QUICKSWAP_ROUTER_ADDR, UNISWAP_V3_ROUTER_ADDR]

/-- Embedding of `MempoolMonitor::find_best_pool` (`src/main.rs`): the code
runs `Address::from_str("0x...")?`, and `"0x..."` is not valid hex, so this
always propagates a parse error. -/
def find_best_pool (_path : List Nat) : Except String Nat :=
  .error "invalid address string"

/-- Embedding of `MempoolMonitor::analyze_arbitrage` (`src/main.rs` lines
126-151): simulate the price impact, and when it exceeds 100 basis points,
materialize an opportunity from the found path when the profit exceeds
`10^15`.  The `path[0]` / `path.last().unwrap()` indexing is total here
because `find_arbitrage_path` returns a constant three-element path.
Returns the analysis outcome together with the updated simulation cache. -/
def analyze_arbitrage (cache : List (Nat × Nat)) (tx : Transaction) (evmSuccess : Bool) :
    Except String (Option ArbitrageOpportunity) × List (Nat × Nat) :=
  let sim := simulate_price_impact cache tx evmSuccess
  let price_impact := sim.1
  let cache2 := sim.2.1
  if 100 < price_impact then
    match find_arbitrage_path tx with
    | some path =>
      let profit := calculate_profit path
      if 10 ^ 15 < profit then
        match find_best_pool path with
        | .ok pool =>
          (.ok (some { token_in := path.headD 0, token_out := path.getLastD 0,
                       amount_in := 10 ^ 18, expected_profit := profit, path := path,
                       routers := get_routers_for_path path, pool_address := pool,
                       fee := 3000 }), cache2)
        | .error e => (.error e, cache2)
      else (.ok none, cache2)
    | none => (.ok none, cache2)
  else (.ok none, cache2)

/-- The classification-and-analysis tail of
`MempoolMonitor::process_transaction` (`src/main.rs` lines 94-101): runs
after the dedup check, pushing any found opportunity into the store.  A
failing analysis propagates its error (the simulation-cache mutation it
already made persists). -/
def classify_and_analyze (st : MonitorState) (tx : Transaction) (evmSuccess : Bool) :
    Except String Unit × MonitorState :=
  if is_swap_transaction tx then
    match analyze_arbitrage st.sim_cache tx evmSuccess with
    | (.ok (some opp), cache2) =>
      (.ok (), { st with sim_cache := cache2, opportunities := st.opportunities ++ [opp] })
    | (.ok none, cache2) => (.ok (), { st with sim_cache := cache2 })
    | (.error e, cache2) => (.error e, { st with sim_cache := cache2 })
  else (.ok (), st)

/-- Embedding of `MempoolMonitor::process_transaction` (`src/main.rs` lines
82-104): if the hash is already in the dedup set, return `Ok(())`
immediately; otherwise insert the hash first, then classify and analyze.
The third component records whether the transaction was forwarded past the
dedup check into classification. -/
def process_transaction (st : MonitorState) (tx : Transaction) (evmSuccess : Bool) :
    Except String Unit × MonitorState × Bool :=
  if tx.hash ∈ st.processed_txs then (.ok (), st, false)
  else
    let st1 := { st with processed_txs := tx.hash :: st.processed_txs }
    let r := classify_and_analyze st1 tx evmSuccess
    (r.1, r.2, true)

/-- Embedding of `MempoolMonitor::should_execute` (`src/main.rs` lines
227-233): `expected_profit - gas_price * 300000 > 0`, computed with ethers
`U256` arithmetic, whose multiplication panics past `2^256` and whose
subtraction panics on underflow (`none` models the panic). -/
def should_execute (expected_profit gas_price : Nat) : Option Bool :=
  if gas_price * 300000 < 2 ^ 256 then
    let gas_cost := gas_price * 300000
    if gas_cost ≤ expected_profit then some (0 < expected_profit - gas_cost)
    else none
  else none

/-- Driver for repeated ingestion: process a list of (transaction, sandbox
outcome) pairs in arrival order and count how many of the arrivals carrying
hash `h` were forwarded past the dedup check. -/
def forwarded_count (st : MonitorState) (arrivals : List (Transaction × Bool)) (h : Nat) : Nat :=
  match arrivals with
  | [] => 0
  | (tx, ev) :: rest =>
    (if tx.hash = h ∧ (process_transaction st tx ev).2.2 = true then 1 else 0) +
      forwarded_count (process_transaction st tx ev).2.1 rest h

/-! ## src/simulation_engine.rs — AdvancedSimulationEngine -/

/-- Embedding of `SimulationResult` from `src/simulation_engine.rs`.  The
`success_probability: f64` field only ever holds the literal `0.85`; it is
carried as the rational `17/20`. -/
structure SimulationResult where
  price_impact : Nat
  expected_profit : Nat
  gas_estimate : Nat
  success_probability : ℚ
  optimal_path : List Nat
deriving DecidableEq, Repr

/-- Outcome of one engine simulation: a result, a propagated
`anyhow::Result` error (e.g. the provider's gas-price query failing), or a
U256 arithmetic panic. -/
inductive SimOutcome where
  | ok (r : SimulationResult)
  | err (e : String)
  | panicked
deriving DecidableEq, Repr

/-- Embedding of `AdvancedSimulationEngine::generate_arbitrage_paths`
(`src/simulation_engine.rs`): two hardcoded example paths, independent of the
transaction and depth. -/
def generate_arbitrage_paths (_tx : Transaction) (_depth : Nat) : List (List Nat) :=
  [[WMATIC_ADDR, USDC_ADDR, WMATIC_ADDR],
   [WMATIC_ADDR, USDT_ADDR, USDC_ADDR, WMATIC_ADDR]]

/-- Embedding of `AdvancedSimulationEngine::calculate_path_profit`:
`15^15 - 2^15 - 1^15` over U256; the subtractions never underflow because
all three operands are these literal constants. -/
def calculate_path_profit (_path : List Nat) : Nat := 15 ^ 15 - 2 ^ 15 - 1 ^ 15

/-- Embedding of `AdvancedSimulationEngine::simulate_complex_path`
(`src/simulation_engine.rs` lines 93-118): fold over the candidate paths
keeping the best strictly-improving profit, then assemble the result.  The
provider's gas price query is the external collaborator `gasPrice` (`none`
models a failed query, propagated with `?`); `gas_price * 300000` panics on
U256 overflow. -/
def simulate_complex_path (tx : Transaction) (depth : Nat) (gasPrice : Option Nat) : SimOutcome :=
  let best := (generate_arbitrage_paths tx depth).foldl
    (fun (acc : Nat × List Nat) p =>
      let profit := calculate_path_profit p
      if acc.1 < profit then (profit, p) else acc)
    (0, [])
  match gasPrice with
  | none => .err "gas price query failed"
  | some gp =>
    if gp * 300000 < 2 ^ 256 then
      .ok { price_impact := 150, expected_profit := best.1, gas_estimate := gp * 300000,
            success_probability := 17 / 20, optimal_path := best.2 }
    else .panicked

/-- Embedding of `AdvancedSimulationEngine::simulate_multi_dex_arbitrage`
(`src/simulation_engine.rs` lines 65-91): return the cached result for the
transaction hash when present; otherwise run `simulate_complex_path` and
cache a successful result under the hash.  The final component records
whether a fresh simulation was run (`false` on a cache hit). -/
def simulate_multi_dex_arbitrage (cache : List (Nat × SimulationResult)) (tx : Transaction)
    (depth : Nat) (gasPrice : Option Nat) :
    SimOutcome × List (Nat × SimulationResult) × Bool :=
  match cache.lookup tx.hash with
  | some result => (.ok result, cache, false)
  | none =>
    match simulate_complex_path tx depth gasPrice with
    | .ok r => (.ok r, (tx.hash, r) :: cache, true)
    | .err e => (.err e, cache, true)
    | .panicked => (.panicked, cache, true)

/-! ## src/fastlane_integration.rs — FastLaneClient -/

/-- The calldata payloads the bundle builder ABI-encodes for its three legs
(`create_flash_loan_tx`, `create_arbitrage_tx`, `create_repayment_tx` in
`src/fastlane_integration.rs`); ABI encoding itself is library code, so the
method name and arguments are carried symbolically. -/
inductive LegCall where
  | executeFlashLoan (token_in token_out amount_in : Nat) (path : List Nat)
  | executeArbitrage (path amounts routers : List Nat)
  | repayFlashLoan (token_in amount_in : Nat)
deriving DecidableEq, Repr

/-- A leg transaction as built by the `create_*_tx` helpers: recipient,
value, gas price, gas limit, calldata, nonce. -/
structure LegTx where
  to_ : Option Nat
  value : Nat
  gas_price : Option Nat
  gas : Nat
  data : LegCall
  nonce : Option Nat
deriving DecidableEq, Repr

/-- Embedding of `FastLaneTransaction` from `src/fastlane_integration.rs`. -/
structure FastLaneTransaction where
  tx : LegTx
  can_revert : Bool
deriving DecidableEq, Repr

/-- Embedding of `FastLaneBundle` from `src/fastlane_integration.rs`. -/
structure FastLaneBundle where
  transactions : List FastLaneTransaction
  block_number : Nat
  min_timestamp : Option Nat
  max_timestamp : Option Nat
  reverting_tx_hashes : List Nat
  target_block : Option Nat
deriving DecidableEq, Repr

/-- The `ArbitrageOpportunity` shape `FastLaneClient` consumes (the fields
`create_arbitrage_bundle` and its leg helpers read: `flash_loan_contract`,
`token_in`, `token_out`, `amount_in`, `path`, `amounts`, `routers`). -/
structure FLOpportunity where
  flash_loan_contract : Nat
  token_in : Nat
  token_out : Nat
  amount_in : Nat
  path : List Nat
  amounts : List Nat
  routers : List Nat
deriving DecidableEq, Repr

/-- Embedding of `FastLaneClient::create_flash_loan_tx`. -/
def create_flash_loan_tx (opportunity : FLOpportunity) (gas_price : Nat) : LegTx :=
  { to_ := some opportunity.flash_loan_contract, value := 0, gas_price := some gas_price,
    gas := 300000,
    data := .executeFlashLoan opportunity.token_in opportunity.token_out
      opportunity.amount_in opportunity.path,
    nonce := none }

/-- Embedding of `FastLaneClient::create_arbitrage_tx` (`solver` is the
client's `solver_contract` field). -/
def create_arbitrage_tx (solver : Nat) (opportunity : FLOpportunity) (gas_price : Nat) : LegTx :=
  { to_ := some solver, value := 0, gas_price := some gas_price, gas := 500000,
    data := .executeArbitrage opportunity.path opportunity.amounts opportunity.routers,
    nonce := none }

/-- Embedding of `FastLaneClient::create_repayment_tx`. -/
def create_repayment_tx (opportunity : FLOpportunity) (gas_price : Nat) : LegTx :=
  { to_ := some opportunity.flash_loan_contract, value := 0, gas_price := some gas_price,
    gas := 200000,
    data := .repayFlashLoan opportunity.token_in opportunity.amount_in,
    nonce := none }

/-- Embedding of `FastLaneClient::create_arbitrage_bundle`
(`src/fastlane_integration.rs` lines 103-137): three legs — flash-loan draw
(`can_revert = false`), arbitrage execution (`can_revert = true`), repayment
(`can_revert = false`) — with `block_number` and `target_block` both set to
the observed block plus one, and a two-minute max-timestamp window from the
observed block timestamp. -/
def create_arbitrage_bundle (solver : Nat) (opportunity : FLOpportunity)
    (gas_price current_block block_timestamp : Nat) : FastLaneBundle :=
  { transactions :=
      [{ tx := create_flash_loan_tx opportunity gas_price, can_revert := false },
       { tx := create_arbitrage_tx solver opportunity gas_price, can_revert := true },
       { tx := create_repayment_tx opportunity gas_price, can_revert := false }],
    block_number := current_block + 1,
    min_timestamp := none,
    max_timestamp := some (block_timestamp + 120),
    reverting_tx_hashes := [],
    target_block := some (current_block + 1) }

/-- The tuple `FastLaneClient::submit_bundle` hands to the relay contract's
`submitBundle` method: transactions, block number, timestamp window,
reverting hashes.  Note `target_block` is not part of it. -/
structure SubmitRequest where
  transactions : List FastLaneTransaction
  block_number : Nat
  min_timestamp : Option Nat
  max_timestamp : Option Nat
  reverting_tx_hashes : List Nat
deriving DecidableEq, Repr

/-- The request `submit_bundle` builds from a bundle. -/
def bundle_request (bundle : FastLaneBundle) : SubmitRequest :=
  { transactions := bundle.transactions, block_number := bundle.block_number,
    min_timestamp := bundle.min_timestamp, max_timestamp := bundle.max_timestamp,
    reverting_tx_hashes := bundle.reverting_tx_hashes }

/-- Embedding of `FastLaneClient::submit_bundle` (`src/fastlane_integration.rs`
lines 51-75): encode the request, hand it to the relay (the external
collaborator `relay`, returning the receipt's transaction hash, or `none`
for no receipt), and fail only when no receipt comes back.  The code performs
no inspection of the bundle before the relay call. -/
def submit_bundle (relay : SubmitRequest → Option Nat) (bundle : FastLaneBundle) :
    Except String Nat :=
  match relay (bundle_request bundle) with
  | some h => .ok h
  | none => .error "Failed to submit FastLane bundle"

/-! ## Helper lemmas -/

/-- Decoding an array token whose elements are all address tokens yields
exactly the underlying address list. -/
theorem addr_elems_map (l : List Nat) : addr_elems (l.map Token.address) = some l := by
  induction l with
  | nil => rfl
  | cons a rest ih => simp [addr_elems, ih]

/-- Plumbing: when the transaction is addressed to the router, has a
selector, the registry matches a function and its ABI decode succeeds, the
decoder's result is the name dispatch on the decoded tokens. -/
theorem parse_eq_dispatch (registry : List AbiFunction) (tx : Transaction) (f : AbiFunction)
    (tokens : List Token)
    (hto : tx.to_ = some QUICKSWAP_ROUTER_ADDR) (hlen : 4 ≤ tx.input.length)
    (hfind : registry.find? (fun g => g.selector == tx.input.take 4) = some f)
    (hdec : f.decode_input (tx.input.drop 4) = some tokens) :
    parse_quickswap_tx registry tx = dispatch f.name tokens tx.value := by
  unfold parse_quickswap_tx
  rw [hto, if_neg (by simp), if_neg (by omega), hfind]
  simp only [hdec]

/-- A decoded token count that disagrees with the matched name's schema
makes every branch of the dispatch return `none`. -/
theorem dispatch_schema_mismatch (name : String) (n : Nat) (tokens : List Token) (v : Nat)
    (hs : schema_token_count name = some n) (hl : tokens.length ≠ n) :
    dispatch name tokens v = none := by
  unfold schema_token_count at hs
  split at hs <;> simp_all [dispatch]

/-- Inversion of the dispatch: whenever a branch of `dispatch` produces
`some` action, the matched name is one of the nine registered schemas, the
token count equals that schema's count `n`, and the action's hop path is
exactly the address array decoded from the schema's path parameter (which
sits at position `n - 3`: index 2 of 5 tokens, index 1 of 4). -/
theorem dispatch_some_path (name : String) (tokens : List Token) (v : Nat)
    (act : QuickSwapAction) (h : dispatch name tokens v = some act) :
    ∃ n, schema_token_count name = some n ∧ tokens.length = n ∧
      ∃ t, tokens[n - 3]? = some t ∧ to_addr_vec t = some act.get_path := by
  by_cases hn1 : name = "swapExactTokensForTokens"
  · subst hn1
    simp only [dispatch] at h
    split at h
    · exact absurd h (by simp)
    · rename_i hlen
      simp only [Option.bind_eq_bind, Option.bind_eq_some, Option.some.injEq] at h
      obtain ⟨t0, h0, a0, ha0, t1, h1, a1, ha1, t2, h2, p, hp, t3, h3, a3, ha3,
        t4, h4, dl, hdl, hact⟩ := h
      subst hact
      exact ⟨5, rfl, by omega, t2, h2, by simpa [QuickSwapAction.get_path] using hp⟩
  by_cases hn2 : name = "swapExactTokensForETH"
  · subst hn2
    simp only [dispatch] at h
    split at h
    · exact absurd h (by simp)
    · rename_i hlen
      simp only [Option.bind_eq_bind, Option.bind_eq_some, Option.some.injEq] at h
      obtain ⟨t0, h0, a0, ha0, t1, h1, a1, ha1, t2, h2, p, hp, t3, h3, a3, ha3,
        t4, h4, dl, hdl, hact⟩ := h
      subst hact
      exact ⟨5, rfl, by omega, t2, h2, by simpa [QuickSwapAction.get_path] using hp⟩
  by_cases hn3 : name = "swapExactETHForTokens"
  · subst hn3
    simp only [dispatch] at h
    split at h
    · exact absurd h (by simp)
    · rename_i hlen
      simp only [Option.bind_eq_bind, Option.bind_eq_some, Option.some.injEq] at h
      obtain ⟨t0, h0, a0, ha0, t1, h1, p, hp, t2, h2, a2, ha2, t3, h3, dl, hdl, hact⟩ := h
      subst hact
      exact ⟨4, rfl, by omega, t1, h1, by simpa [QuickSwapAction.get_path] using hp⟩
  by_cases hn4 : name = "swapTokensForExactTokens"
  · subst hn4
    simp only [dispatch] at h
    split at h
    · exact absurd h (by simp)
    · rename_i hlen
      simp only [Option.bind_eq_bind, Option.bind_eq_some, Option.some.injEq] at h
      obtain ⟨t0, h0, a0, ha0, t1, h1, a1, ha1, t2, h2, p, hp, t3, h3, a3, ha3,
        t4, h4, dl, hdl, hact⟩ := h
      subst hact
      exact ⟨5, rfl, by omega, t2, h2, by simpa [QuickSwapAction.get_path] using hp⟩
  by_cases hn5 : name = "swapTokensForExactETH"
  · subst hn5
    simp only [dispatch] at h
    split at h
    · exact absurd h (by simp)
    · rename_i hlen
      simp only [Option.bind_eq_bind, Option.bind_eq_some, Option.some.injEq] at h
      obtain ⟨t0, h0, a0, ha0, t1, h1, a1, ha1, t2, h2, p, hp, t3, h3, a3, ha3,
        t4, h4, dl, hdl, hact⟩ := h
      subst hact
      exact ⟨5, rfl, by omega, t2, h2, by simpa [QuickSwapAction.get_path] using hp⟩
  by_cases hn6 : name = "swapETHForExactTokens"
  · subst hn6
    simp only [dispatch] at h
    split at h
    · exact absurd h (by simp)
    · rename_i hlen
      simp only [Option.bind_eq_bind, Option.bind_eq_some, Option.some.injEq] at h
      obtain ⟨t0, h0, a0, ha0, t1, h1, p, hp, t2, h2, a2, ha2, t3, h3, dl, hdl, hact⟩ := h
      subst hact
      exact ⟨4, rfl, by omega, t1, h1, by simpa [QuickSwapAction.get_path] using hp⟩
  by_cases hn7 : name = "swapExactTokensForTokensSupportingFeeOnTransferTokens"
  · subst hn7
    simp only [dispatch] at h
    split at h
    · exact absurd h (by simp)
    · rename_i hlen
      simp only [Option.bind_eq_bind, Option.bind_eq_some, Option.some.injEq] at h
      obtain ⟨t0, h0, a0, ha0, t1, h1, a1, ha1, t2, h2, p, hp, t3, h3, a3, ha3,
        t4, h4, dl, hdl, hact⟩ := h
      subst hact
      exact ⟨5, rfl, by omega, t2, h2, by simpa [QuickSwapAction.get_path] using hp⟩
  by_cases hn8 : name = "swapExactTokensForETHSupportingFeeOnTransferTokens"
  · subst hn8
    simp only [dispatch] at h
    split at h
    · exact absurd h (by simp)
    · rename_i hlen
      simp only [Option.bind_eq_bind, Option.bind_eq_some, Option.some.injEq] at h
      obtain ⟨t0, h0, a0, ha0, t1, h1, a1, ha1, t2, h2, p, hp, t3, h3, a3, ha3,
        t4, h4, dl, hdl, hact⟩ := h
      subst hact
      exact ⟨5, rfl, by omega, t2, h2, by simpa [QuickSwapAction.get_path] using hp⟩
  by_cases hn9 : name = "swapExactETHForTokensSupportingFeeOnTransferTokens"
  · subst hn9
    simp only [dispatch] at h
    split at h
    · exact absurd h (by simp)
    · rename_i hlen
      simp only [Option.bind_eq_bind, Option.bind_eq_some, Option.some.injEq] at h
      obtain ⟨t0, h0, a0, ha0, t1, h1, p, hp, t2, h2, a2, ha2, t3, h3, dl, hdl, hact⟩ := h
      subst hact
      exact ⟨4, rfl, by omega, t1, h1, by simpa [QuickSwapAction.get_path] using hp⟩
  · exfalso
    simp [dispatch, hn1, hn2, hn3, hn4, hn5, hn6, hn7, hn8, hn9] at h

/-- The classification-and-analysis tail never touches the dedup set. -/
theorem classify_preserves_processed (st : MonitorState) (tx : Transaction) (ev : Bool) :
    (classify_and_analyze st tx ev).2.processed_txs = st.processed_txs := by
  unfold classify_and_analyze
  by_cases hs : is_swap_transaction tx
  · simp only [hs, if_true]
    rcases h : analyze_arbitrage st.sim_cache tx ev with ⟨res, c2⟩
    rcases res with e | o
    · rfl
    · rcases o with _ | opp <;> rfl
  · simp [hs]

/-- The dedup set after one `process_transaction` call: unchanged on a
repeat hash, the hash consed on first sight. -/
theorem process_processed_txs (st : MonitorState) (tx : Transaction) (ev : Bool) :
    (process_transaction st tx ev).2.1.processed_txs =
      if tx.hash ∈ st.processed_txs then st.processed_txs
      else tx.hash :: st.processed_txs := by
  unfold process_transaction
  by_cases h : tx.hash ∈ st.processed_txs <;>
    simp [h, classify_preserves_processed]

/-- A transaction whose hash is already in the dedup set is dropped without
reaching classification, leaving the state untouched. -/
theorem process_of_mem (st : MonitorState) (tx : Transaction) (ev : Bool)
    (h : tx.hash ∈ st.processed_txs) :
    process_transaction st tx ev = (.ok (), st, false) := by
  unfold process_transaction
  simp [h]

/-- A transaction whose hash is not yet in the dedup set is forwarded past
the dedup check. -/
theorem process_of_not_mem (st : MonitorState) (tx : Transaction) (ev : Bool)
    (h : tx.hash ∉ st.processed_txs) :
    (process_transaction st tx ev).2.2 = true := by
  unfold process_transaction
  simp [h]

/-- A hash already in the dedup set contributes no further forwards, over
any sequence of arrivals. -/
theorem forwarded_count_of_mem (h : Nat) (arrivals : List (Transaction × Bool)) :
    ∀ st : MonitorState, h ∈ st.processed_txs → forwarded_count st arrivals h = 0 := by
  induction arrivals with
  | nil => intro st _; rfl
  | cons p rest ih =>
    intro st hm
    rcases p with ⟨tx, ev⟩
    unfold forwarded_count
    by_cases he : tx.hash = h
    · have hmem : tx.hash ∈ st.processed_txs := he.symm ▸ hm
      rw [process_of_mem st tx ev hmem]
      simpa using ih st hm
    · have hm2 : h ∈ (process_transaction st tx ev).2.1.processed_txs := by
        rw [process_processed_txs]
        split
        · exact hm
        · exact List.mem_cons_of_mem _ hm
      simp only [he, false_and, if_false]
      simpa using ih _ hm2

/-! ## Claim theorems -/

/-- C1: the Scheduler's profitability gate evaluated at the spec's own
example.  `should_execute` computes `expected_profit - gas_price * 300000`
with ethers `U256` subtraction, which panics on underflow, so at
`expected_profit = 2_000_000` and `gas_price = 10` (gas cost `3_000_000`,
net below zero) the code panics (`none`) instead of discarding the
opportunity; only at net exactly zero does it discard gracefully, and at
positive net it hands off. -/
theorem scheduler_gate_panics_at_spec_example :
    should_execute 2000000 10 = none ∧
    should_execute 3000000 10 = some false ∧
    should_execute 4000000 10 = some true := by
  refine ⟨?_, ?_, ?_⟩ <;> decide

/-- C2 counterexample: a bundle whose `target_block` equals the block
observed at construction time (100), and one targeting that block plus 100,
are both handed to the relay, which returns a receipt: `submit_bundle`
performs no local `StaleBundleTarget` rejection at all. -/
theorem stale_bundle_reaches_relay :
    submit_bundle (fun _ => some 77)
      { transactions := [], block_number := 100, min_timestamp := none,
        max_timestamp := none, reverting_tx_hashes := [], target_block := some 100 } = .ok 77 ∧
    submit_bundle (fun _ => some 77)
      { transactions := [], block_number := 100, min_timestamp := none,
        max_timestamp := none, reverting_tx_hashes := [], target_block := some 200 } = .ok 77 :=
  ⟨rfl, rfl⟩

/-- C2 (amended): no target-block validation happens before submission —
`submit_bundle`'s behavior is entirely independent of `target_block` (the
relay request does not even carry it), and every bundle the builder
constructs targets the observed block plus one, which lies inside the
claimed `(current, current + 5]` window. -/
theorem submit_ignores_target_block :
    (∀ (relay : SubmitRequest → Option Nat) (bundle : FastLaneBundle) (tb : Option Nat),
      submit_bundle relay { bundle with target_block := tb } = submit_bundle relay bundle) ∧
    (∀ (solver : Nat) (opportunity : FLOpportunity) (gas_price current_block block_timestamp : Nat),
      (create_arbitrage_bundle solver opportunity gas_price current_block
          block_timestamp).target_block = some (current_block + 1)) :=
  ⟨fun _ _ _ => rfl, fun _ _ _ _ _ => rfl⟩

/-- C3 counterexample: a registry entry for `swapExactTokensForTokens`
whose decode yields 4 tokens instead of the schema's 5; the decoder silently
returns `None` (its return type has no error channel), rather than failing
loudly with a `SchemaInconsistency` error. -/
theorem schema_mismatch_is_silent :
    parse_quickswap_tx
      [{ name := "swapExactTokensForTokens", selector := [1, 2, 3, 4],
         decode_input := fun _ =>
           some [Token.uint 1, Token.uint 2, Token.array [], Token.address 7] }]
      { hash := 12, from_ := 1, to_ := some QUICKSWAP_ROUTER_ADDR, value := 0,
        input := [1, 2, 3, 4], gas_price := 1 } = none := rfl

/-- C3 (amended): whenever the matched registry function's decode yields a
token count disagreeing with that function's schema (4 for the native-input
entrypoints, 5 for the rest), `parse_quickswap_tx` silently returns `None`;
no `SchemaInconsistency` error exists in the code. -/
theorem schema_mismatch_returns_none (registry : List AbiFunction) (tx : Transaction)
    (f : AbiFunction) (tokens : List Token) (n : Nat)
    (hto : tx.to_ = some QUICKSWAP_ROUTER_ADDR) (hlen : 4 ≤ tx.input.length)
    (hfind : registry.find? (fun g => g.selector == tx.input.take 4) = some f)
    (hdec : f.decode_input (tx.input.drop 4) = some tokens)
    (hs : schema_token_count f.name = some n) (hl : tokens.length ≠ n) :
    parse_quickswap_tx registry tx = none := by
  rw [parse_eq_dispatch registry tx f tokens hto hlen hfind hdec]
  exact dispatch_schema_mismatch f.name n tokens tx.value hs hl

/-- Witness for the amended C3 theorem at a concrete registry, transaction
and 4-token decode against the 5-token schema. -/
theorem schema_mismatch_returns_none_witness :
    parse_quickswap_tx
      [{ name := "swapExactTokensForTokens", selector := [1, 2, 3, 4],
         decode_input := fun _ =>
           some [Token.uint 1, Token.uint 2, Token.array [], Token.address 7] }]
      { hash := 13, from_ := 1, to_ := some QUICKSWAP_ROUTER_ADDR, value := 0,
        input := [1, 2, 3, 4], gas_price := 1 } = none :=
  schema_mismatch_returns_none _ _ _
    [Token.uint 1, Token.uint 2, Token.array [], Token.address 7] 5
    rfl (by decide) rfl rfl rfl (by decide)

/-- C4: the Simulator is idempotent per transaction hash — once a call has
computed and cached a `SimulationResult`, a second call with the same hash
(whatever depth and gas price it sees) returns the identical result from the
cache, leaving the cache unchanged and running no fresh path enumeration or
simulation (third component `false`). -/
theorem simulator_idempotent_per_hash
    (cache cache2 : List (Nat × SimulationResult)) (tx : Transaction)
    (depth depth2 : Nat) (gasPrice gasPrice2 : Option Nat) (r : SimulationResult)
    (h : simulate_multi_dex_arbitrage cache tx depth gasPrice = (.ok r, cache2, true)) :
    simulate_multi_dex_arbitrage cache2 tx depth2 gasPrice2 = (.ok r, cache2, false) := by
  unfold simulate_multi_dex_arbitrage at h ⊢
  cases hc : cache.lookup tx.hash with
  | some result => rw [hc] at h; simp at h
  | none =>
    rw [hc] at h
    cases hs : simulate_complex_path tx depth gasPrice with
    | ok r2 =>
      rw [hs] at h
      simp only [Prod.mk.injEq, SimOutcome.ok.injEq] at h
      obtain ⟨hr, hcache, -⟩ := h
      subst hr
      rw [← hcache]
      simp [List.lookup]
    | err e => rw [hs] at h; simp at h
    | panicked => rw [hs] at h; simp at h

/-- Witness for C4: a first engine call populates the cache; the second call
on the resulting cache is a pure cache hit with the identical result. -/
theorem simulator_idempotent_per_hash_witness :
    simulate_multi_dex_arbitrage
      [(9, { price_impact := 150, expected_profit := 437893890380826606,
             gas_estimate := 300000, success_probability := 17 / 20,
             optimal_path := [WMATIC_ADDR, USDC_ADDR, WMATIC_ADDR] })]
      { hash := 9, from_ := 1, to_ := none, value := 0, input := [], gas_price := 1 } 5 (some 2) =
    (.ok { price_impact := 150, expected_profit := 437893890380826606,
           gas_estimate := 300000, success_probability := 17 / 20,
           optimal_path := [WMATIC_ADDR, USDC_ADDR, WMATIC_ADDR] },
     [(9, { price_impact := 150, expected_profit := 437893890380826606,
            gas_estimate := 300000, success_probability := 17 / 20,
            optimal_path := [WMATIC_ADDR, USDC_ADDR, WMATIC_ADDR] })], false) :=
  simulator_idempotent_per_hash [] _
    { hash := 9, from_ := 1, to_ := none, value := 0, input := [], gas_price := 1 }
    3 5 (some 1) (some 2) _ rfl

/-- C5: for every transaction hash not yet seen, any number of arrivals with
that hash forwards it past the dedup check into classification exactly once:
the count of forwarded arrivals carrying the hash over an arbitrary arrival
sequence is one when the hash occurs in the sequence, zero otherwise. -/
theorem ingestion_forwards_each_hash_once
    (arrivals : List (Transaction × Bool)) (st : MonitorState) (h : Nat)
    (hnm : h ∉ st.processed_txs) :
    forwarded_count st arrivals h =
      if h ∈ arrivals.map (fun p => p.1.hash) then 1 else 0 := by
  induction arrivals generalizing st with
  | nil => rfl
  | cons p rest ih =>
    rcases p with ⟨tx, ev⟩
    unfold forwarded_count
    by_cases he : tx.hash = h
    · have hninit : tx.hash ∉ st.processed_txs := he.symm ▸ hnm
      have hf : (process_transaction st tx ev).2.2 = true := process_of_not_mem st tx ev hninit
      have hmem : h ∈ (process_transaction st tx ev).2.1.processed_txs := by
        rw [process_processed_txs, if_neg hninit]
        exact he ▸ List.mem_cons_self tx.hash st.processed_txs
      rw [forwarded_count_of_mem h rest _ hmem]
      simp [he, hf]
    · have hm2 : h ∉ (process_transaction st tx ev).2.1.processed_txs := by
        rw [process_processed_txs]
        split
        · exact hnm
        · intro hc
          rcases List.mem_cons.mp hc with h1 | h1
          · exact he h1.symm
          · exact hnm h1
      have hne : h ≠ tx.hash := fun h1 => he h1.symm
      rw [ih _ hm2]
      by_cases hmem : h ∈ rest.map (fun p => p.1.hash) <;>
        simp [he, hne, List.mem_cons, hmem]

/-- Witness for C5: two arrivals of the same hash starting from an empty
dedup set forward exactly once. -/
theorem ingestion_forwards_each_hash_once_witness :
    forwarded_count { opportunities := [], processed_txs := [], sim_cache := [] }
      [({ hash := 7, from_ := 1, to_ := none, value := 0, input := [], gas_price := 1 }, true),
       ({ hash := 7, from_ := 1, to_ := none, value := 0, input := [], gas_price := 1 }, true)]
      7 = 1 := by
  rw [ingestion_forwards_each_hash_once _ _ 7 (by decide)]
  decide

/-- C6: for each of the three native-asset-input variants, the bound input
amount of the produced action (`amount_in`, respectively `amount_in_max` for
`swapETHForExactTokens`) is the transaction's `value` field, while
`amountOutMin` / `amountOut`, the hop path, the recipient and the deadline
come from the decoded calldata parameters. -/
theorem native_input_amount_is_tx_value :
    (∀ (registry : List AbiFunction) (tx : Transaction) (f : AbiFunction)
       (aom to_ dl : Nat) (l : List Nat),
      tx.to_ = some QUICKSWAP_ROUTER_ADDR → 4 ≤ tx.input.length →
      registry.find? (fun g => g.selector == tx.input.take 4) = some f →
      f.name = "swapExactETHForTokens" →
      f.decode_input (tx.input.drop 4) =
        some [Token.uint aom, Token.array (l.map Token.address), Token.address to_, Token.uint dl] →
      parse_quickswap_tx registry tx =
        some (.swapExactETHForTokens tx.value aom l to_ dl)) ∧
    (∀ (registry : List AbiFunction) (tx : Transaction) (f : AbiFunction)
       (aout to_ dl : Nat) (l : List Nat),
      tx.to_ = some QUICKSWAP_ROUTER_ADDR → 4 ≤ tx.input.length →
      registry.find? (fun g => g.selector == tx.input.take 4) = some f →
      f.name = "swapETHForExactTokens" →
      f.decode_input (tx.input.drop 4) =
        some [Token.uint aout, Token.array (l.map Token.address), Token.address to_, Token.uint dl] →
      parse_quickswap_tx registry tx =
        some (.swapETHForExactTokens aout l to_ dl tx.value)) ∧
    (∀ (registry : List AbiFunction) (tx : Transaction) (f : AbiFunction)
       (aom to_ dl : Nat) (l : List Nat),
      tx.to_ = some QUICKSWAP_ROUTER_ADDR → 4 ≤ tx.input.length →
      registry.find? (fun g => g.selector == tx.input.take 4) = some f →
      f.name = "swapExactETHForTokensSupportingFeeOnTransferTokens" →
      f.decode_input (tx.input.drop 4) =
        some [Token.uint aom, Token.array (l.map Token.address), Token.address to_, Token.uint dl] →
      parse_quickswap_tx registry tx =
        some (.swapExactETHForTokensSupportingFeeOnTransferTokens tx.value aom l to_ dl)) := by
  refine ⟨?_, ?_, ?_⟩ <;>
  · intro registry tx f a to_ dl l hto hlen hfind hname hdec
    rw [parse_eq_dispatch registry tx f _ hto hlen hfind hdec, hname]
    simp [dispatch, to_u256, to_addr, to_addr_vec, addr_elems_map]

/-- Witness for C6: a concrete transaction with `value = 42` decoded through
each of the three native-input entrypoints binds 42 as the input amount. -/
theorem native_input_amount_is_tx_value_witness :
    parse_quickswap_tx
      [{ name := "swapExactETHForTokens", selector := [1, 2, 3, 4],
         decode_input := fun _ =>
           some [Token.uint 5, Token.array [Token.address 8, Token.address 9],
                 Token.address 7, Token.uint 6] }]
      { hash := 21, from_ := 1, to_ := some QUICKSWAP_ROUTER_ADDR, value := 42,
        input := [1, 2, 3, 4], gas_price := 1 } =
      some (.swapExactETHForTokens 42 5 [8, 9] 7 6) ∧
    parse_quickswap_tx
      [{ name := "swapETHForExactTokens", selector := [1, 2, 3, 4],
         decode_input := fun _ =>
           some [Token.uint 5, Token.array [Token.address 8, Token.address 9],
                 Token.address 7, Token.uint 6] }]
      { hash := 22, from_ := 1, to_ := some QUICKSWAP_ROUTER_ADDR, value := 42,
        input := [1, 2, 3, 4], gas_price := 1 } =
      some (.swapETHForExactTokens 5 [8, 9] 7 6 42) ∧
    parse_quickswap_tx
      [{ name := "swapExactETHForTokensSupportingFeeOnTransferTokens", selector := [1, 2, 3, 4],
         decode_input := fun _ =>
           some [Token.uint 5, Token.array [Token.address 8, Token.address 9],
                 Token.address 7, Token.uint 6] }]
      { hash := 23, from_ := 1, to_ := some QUICKSWAP_ROUTER_ADDR, value := 42,
        input := [1, 2, 3, 4], gas_price := 1 } =
      some (.swapExactETHForTokensSupportingFeeOnTransferTokens 42 5 [8, 9] 7 6) :=
  ⟨native_input_amount_is_tx_value.1 _ _ _ 5 7 6 [8, 9] rfl (by decide) rfl rfl rfl,
   native_input_amount_is_tx_value.2.1 _ _ _ 5 7 6 [8, 9] rfl (by decide) rfl rfl rfl,
   native_input_amount_is_tx_value.2.2 _ _ _ 5 7 6 [8, 9] rfl (by decide) rfl rfl rfl⟩

/-- C7 counterexample: a matched `swapExactTokensForTokens` call whose
decoded path parameter is the empty array produces a `Some` action whose hop
path has length 0, violating the claimed path-length-at-least-2 invariant —
the decoder enforces no minimum path length. -/
theorem decoder_emits_action_with_empty_path :
    parse_quickswap_tx
      [{ name := "swapExactTokensForTokens", selector := [1, 2, 3, 4],
         decode_input := fun _ =>
           some [Token.uint 1, Token.uint 2, Token.array [], Token.address 7, Token.uint 9] }]
      { hash := 11, from_ := 1, to_ := some QUICKSWAP_ROUTER_ADDR, value := 0,
        input := [1, 2, 3, 4], gas_price := 1 } =
      some (.swapExactTokensForTokens 1 2 [] 7 9) ∧
    (QuickSwapAction.swapExactTokensForTokens 1 2 [] 7 9).get_path.length < 2 :=
  ⟨rfl, by decide⟩

/-- C7 (amended): every `QuickSwapAction` the decoder returns as `Some` —
through any of the nine registered entrypoints — carries as its hop path
exactly the address array decoded from the matched schema's path parameter
(index 2 of the 5-token schemas, index 1 of the 4-token ones, i.e. position
`n - 3`), copied verbatim with no minimum-length check, so paths of any
length, including lengths below 2, occur. -/
theorem decoder_copies_path_verbatim (registry : List AbiFunction) (tx : Transaction)
    (act : QuickSwapAction) (h : parse_quickswap_tx registry tx = some act) :
    ∃ (f : AbiFunction) (tokens : List Token) (n : Nat),
      registry.find? (fun g => g.selector == tx.input.take 4) = some f ∧
      f.decode_input (tx.input.drop 4) = some tokens ∧
      schema_token_count f.name = some n ∧
      tokens.length = n ∧
      ∃ t, tokens[n - 3]? = some t ∧ to_addr_vec t = some act.get_path := by
  unfold parse_quickswap_tx at h
  split at h
  · exact absurd h (by simp)
  · split at h
    · exact absurd h (by simp)
    · split at h
      · exact absurd h (by simp)
      · rename_i f hfind
        split at h
        · exact absurd h (by simp)
        · rename_i tokens hdec
          obtain ⟨n, hs, hl, t, ht, hpath⟩ := dispatch_some_path f.name tokens tx.value act h
          exact ⟨f, tokens, n, hfind, hdec, hs, hl, t, ht, hpath⟩

/-- Witness for the amended C7 theorem: at the concrete empty-path decode,
the produced action's path is the decoded (empty) address array. -/
theorem decoder_copies_path_verbatim_witness :
    ∃ (f : AbiFunction) (tokens : List Token) (n : Nat),
      (([{ name := "swapExactTokensForTokens", selector := [1, 2, 3, 4],
           decode_input := fun _ =>
             some [Token.uint 1, Token.uint 2, Token.array [], Token.address 7,
                   Token.uint 9] }] : List AbiFunction).find?
        (fun g => g.selector ==
          ({ hash := 14, from_ := 1, to_ := some QUICKSWAP_ROUTER_ADDR, value := 0,
             input := [1, 2, 3, 4], gas_price := 1 } : Transaction).input.take 4)) = some f ∧
      f.decode_input (([1, 2, 3, 4] : List Nat).drop 4) = some tokens ∧
      schema_token_count f.name = some n ∧
      tokens.length = n ∧
      ∃ t, tokens[n - 3]? = some t ∧
        to_addr_vec t = some (QuickSwapAction.swapExactTokensForTokens 1 2 [] 7 9).get_path :=
  decoder_copies_path_verbatim
    [{ name := "swapExactTokensForTokens", selector := [1, 2, 3, 4],
       decode_input := fun _ =>
         some [Token.uint 1, Token.uint 2, Token.array [], Token.address 7, Token.uint 9] }]
    { hash := 14, from_ := 1, to_ := some QUICKSWAP_ROUTER_ADDR, value := 0,
      input := [1, 2, 3, 4], gas_price := 1 }
    (.swapExactTokensForTokens 1 2 [] 7 9) rfl

/-- C8: for every opportunity and gas price, the bundle built by
`create_arbitrage_bundle` holds exactly three legs in order — the flash-loan
draw, the arbitrage execution and the flash-loan repayment — with
revert-allowed flags `false`, `true`, `false`, and targets the block
observed at construction time plus one. -/
theorem bundle_three_legs_and_target (solver : Nat) (opportunity : FLOpportunity)
    (gas_price current_block block_timestamp : Nat) :
    (create_arbitrage_bundle solver opportunity gas_price current_block
        block_timestamp).transactions =
      [{ tx := create_flash_loan_tx opportunity gas_price, can_revert := false },
       { tx := create_arbitrage_tx solver opportunity gas_price, can_revert := true },
       { tx := create_repayment_tx opportunity gas_price, can_revert := false }] ∧
    ((create_arbitrage_bundle solver opportunity gas_price current_block
        block_timestamp).transactions.map (fun t => t.can_revert)) = [false, true, false] ∧
    (create_arbitrage_bundle solver opportunity gas_price current_block
        block_timestamp).target_block = some (current_block + 1) :=
  ⟨rfl, rfl, rfl⟩

/-- C9 counterexample: a failed sandbox execution (`evmSuccess = false`) is
not propagated as a retryable error — `simulate_price_impact` maps it to a
price impact of zero, stores that zero in the simulation cache, and a later
call with the same hash returns the cached zero without re-simulating
(`false` third component) instead of retrying. -/
theorem sandbox_failure_cached_as_zero :
    simulate_price_impact []
      { hash := 5, from_ := 1, to_ := some QUICKSWAP_ROUTER_ADDR, value := 0,
        input := [], gas_price := 1 } false = (0, [(5, 0)], true) ∧
    simulate_price_impact [(5, 0)]
      { hash := 5, from_ := 1, to_ := some QUICKSWAP_ROUTER_ADDR, value := 0,
        input := [], gas_price := 1 } false = (0, [(5, 0)], false) :=
  ⟨rfl, rfl⟩

/-- C9 (amended): when the sandbox fails on an uncached transaction, the
call returns impact zero (an `Ok`, not an error), caches the zero under the
transaction hash, and a subsequent call with the same hash returns the
cached zero without retrying the simulation. -/
theorem sandbox_failure_returns_and_caches_zero (cache : List (Nat × Nat)) (tx : Transaction)
    (h : cache.lookup tx.hash = none) :
    simulate_price_impact cache tx false = (0, (tx.hash, 0) :: cache, true) ∧
    simulate_price_impact ((tx.hash, 0) :: cache) tx false =
      (0, (tx.hash, 0) :: cache, false) := by
  constructor
  · simp [simulate_price_impact, h]
  · simp [simulate_price_impact, List.lookup]

/-- Witness for the amended C9 theorem at a concrete transaction. -/
theorem sandbox_failure_returns_and_caches_zero_witness :
    simulate_price_impact []
      { hash := 6, from_ := 1, to_ := none, value := 0, input := [], gas_price := 1 } false =
      (0, [(6, 0)], true) ∧
    simulate_price_impact [(6, 0)]
      { hash := 6, from_ := 1, to_ := none, value := 0, input := [], gas_price := 1 } false =
      (0, [(6, 0)], false) :=
  sandbox_failure_returns_and_caches_zero []
    { hash := 6, from_ := 1, to_ := none, value := 0, input := [], gas_price := 1 } rfl

/-- C10: `process_transaction` inserts the transaction hash into the dedup
set before classification and analysis, so the hash is present afterwards
for every transaction — including non-swaps and transactions whose analysis
yields nothing or an error (every `evmSuccess` and every transaction shape
is covered) — and the dedup set only grows: every hash present before the
call is present after it. -/
theorem dedup_set_marked_first_and_monotone (st : MonitorState) (tx : Transaction) (ev : Bool) :
    tx.hash ∈ (process_transaction st tx ev).2.1.processed_txs ∧
    ∀ h, h ∈ st.processed_txs → h ∈ (process_transaction st tx ev).2.1.processed_txs := by
  constructor
  · rw [process_processed_txs]
    split
    · assumption
    · exact List.mem_cons_self tx.hash st.processed_txs
  · intro h hm
    rw [process_processed_txs]
    split
    · exact hm
    · exact List.mem_cons_of_mem _ hm

/-- Witness for C10: a non-swap transaction (recipient `none`) is marked in
the dedup set, and a previously present hash survives the call. -/
theorem dedup_set_marked_first_and_monotone_witness :
    7 ∈ (process_transaction { opportunities := [], processed_txs := [5], sim_cache := [] }
          { hash := 7, from_ := 1, to_ := none, value := 0, input := [], gas_price := 1 }
          true).2.1.processed_txs ∧
    5 ∈ (process_transaction { opportunities := [], processed_txs := [5], sim_cache := [] }
          { hash := 7, from_ := 1, to_ := none, value := 0, input := [], gas_price := 1 }
          true).2.1.processed_txs :=
  ⟨(dedup_set_marked_first_and_monotone _ _ _).1,
   (dedup_set_marked_first_and_monotone _ _ _).2 5 (by decide)⟩

end MevBot
